import Mathlib

/-
Verification of the OpenFisca country-template variable definitions
(src/openfisca_country_template/variables/benefits.py) against the
design-level specification of the rule-evaluation core.

Dates are encoded as natural numbers in yyyymmdd form, which preserves
chronological order.  Monetary and age values are rationals; a numpy
boolean mask is a list of booleans and a vectorized value is a list of
rationals.  A formula over an entity batch is a Lean function from the
list of entity snapshots (the attribute values each entity carries for
the queried period) and the parameter values in force at that period.
-/

namespace CountryTemplate

/-- Attribute values a Person carries for one queried month. -/
structure PersonSnap where
  age : ℚ
  salary : ℚ
deriving DecidableEq

/-- Attribute values a Household carries for one queried month, with its
role groups (parents, children) as lists of member Person snapshots. -/
structure HouseholdSnap where
  rent : ℚ
  parents : List PersonSnap
  children : List PersonSnap
  income : ℚ
deriving DecidableEq

/-- The parameter values in force at the queried period (the leaves of the
parameter tree the formulas in benefits.py read). -/
structure Params where
  age_of_majority : ℚ
  age_of_retirement : ℚ
  basic_income : ℚ
  housing_allowance : ℚ
  parenting_payment : ℚ
deriving DecidableEq

/-! ## Vectorized evaluator primitives

In numpy, a boolean multiplied by a number is 1*x or 0*x, so mask * value
is a vectorized conditional-select, and mask * mask is a vectorized and. -/

/-- Elementwise product of a boolean mask with a scalar, as numpy computes
it: each boolean is promoted to 1 or 0 and multiplied with the scalar. -/
def maskMul (m : List Bool) (v : ℚ) : List ℚ :=
  m.map (fun b => (if b then (1 : ℚ) else 0) * v)

/-- Elementwise product of a boolean mask with a value array of matching
length, each boolean promoted to 1 or 0. -/
def maskMulArr (m : List Bool) (vs : List ℚ) : List ℚ :=
  List.zipWith (fun b x => (if b then (1 : ℚ) else 0) * x) m vs

/-- Elementwise product of two boolean masks, the vectorized and. -/
def maskAnd (m1 m2 : List Bool) : List Bool :=
  List.zipWith and m1 m2

/-! ## Formula dispatcher

Modelled from the spec: the formula dispatcher (section 4.1) belongs to the
openfisca-core framework, which is not part of this repository; only the
dated formula declarations that feed it are in src.  Per the spec, a
variable holds formulas as (effective date, formula) pairs sorted by
ascending effective date, plus an optional end date, and the dispatcher
returns the last formula whose effective date is at most period.start,
or none when the end date is before period.start or no formula qualifies. -/

/-- A variable schedule: dated formulas in ascending effective-date order
and an optional validity end date, both as yyyymmdd numbers. -/
structure VarSchedule (F : Type) where
  formulas : List (Nat × F)
  endDate : Option Nat

/-- The last entry of the list whose effective date is at most ps, in list
order (for an ascending list, the latest qualifying effective date). -/
def lastLE {F : Type} : List (Nat × F) → Nat → Option (Nat × F)
  | [], _ => none
  | df :: rest, ps =>
    match lastLE rest ps with
    | some r => some r
    | none => if df.1 ≤ ps then some df else none

/-- Modelled from the spec: select_formula (section 4.1).  If the variable
has an end date before period.start no formula is selected; otherwise the
last formula whose effective date is at most period.start is selected. -/
def selectFormula {F : Type} (v : VarSchedule F) (ps : Nat) : Option (Nat × F) :=
  match v.endDate with
  | some e => if e < ps then none else lastLE v.formulas ps
  | none => lastLE v.formulas ps

/-! ## basic_income (benefits.py lines 15-32)

Two dated formulas; value_type float, entity Person, monthly, no end. -/

/-- Tag for the dated formulas of basic_income. -/
inductive BIFormula
  | f2015
  | f2016
deriving DecidableEq

/-- Translation of basic_income.formula_2016_12: the mask
(age >= age_of_majority) times the basic_income parameter. -/
def basic_income_formula_2016_12 (persons : List PersonSnap) (p : Params) : List ℚ :=
  let age_condition := persons.map (fun per => decide (p.age_of_majority ≤ per.age))
  maskMul age_condition p.basic_income

/-- Translation of basic_income.formula_2015_12: the mask
(age >= age_of_majority) times the mask (salary == 0) times the
basic_income parameter. -/
def basic_income_formula_2015_12 (persons : List PersonSnap) (p : Params) : List ℚ :=
  let age_condition := persons.map (fun per => decide (p.age_of_majority ≤ per.age))
  let salary_condition := persons.map (fun per => decide (per.salary = 0))
  maskMul (maskAnd age_condition salary_condition) p.basic_income

/-- The dated-formula schedule of basic_income: formula_2015_12 effective
2015-12-01 and formula_2016_12 effective 2016-12-01, no end date. -/
def basic_income_schedule : VarSchedule BIFormula :=
  { formulas := [(20151201, BIFormula.f2015), (20161201, BIFormula.f2016)],
    endDate := none }

/-- Apply a basic_income formula tag to a batch. -/
def applyBIFormula : BIFormula → List PersonSnap → Params → List ℚ
  | BIFormula.f2015 => basic_income_formula_2015_12
  | BIFormula.f2016 => basic_income_formula_2016_12

/-- Resolution of basic_income for a batch and a period start: dispatch,
then run the selected formula, or resolve every member to the numeric
default 0.0 when no formula is selected. -/
def basic_income_compute (persons : List PersonSnap) (p : Params) (ps : Nat) : List ℚ :=
  match selectFormula basic_income_schedule ps with
  | some df => applyBIFormula df.2 persons p
  | none => persons.map (fun _ => 0)

/-! ## housing_allowance (benefits.py lines 35-53)

One formula effective 1980-01-01; the variable ends 2016-11-30. -/

/-- Tag for the single dated formula of housing_allowance. -/
inductive HAFormula
  | f1980
deriving DecidableEq

/-- Translation of housing_allowance.formula_1980: rent times the
housing_allowance parameter. -/
def housing_allowance_formula_1980 (hs : List HouseholdSnap) (p : Params) : List ℚ :=
  hs.map (fun h => h.rent * p.housing_allowance)

/-- The schedule of housing_allowance: one formula effective 1980-01-01,
end date 2016-11-30. -/
def housing_allowance_schedule : VarSchedule HAFormula :=
  { formulas := [(19800101, HAFormula.f1980)],
    endDate := some 20161130 }

/-- Resolution of housing_allowance for a batch and a period start. -/
def housing_allowance_compute (hs : List HouseholdSnap) (p : Params) (ps : Nat) : List ℚ :=
  match selectFormula housing_allowance_schedule ps with
  | some _ => housing_allowance_formula_1980 hs p
  | none => hs.map (fun _ => 0)

/-! ## household_income (benefits.py lines 102-113) -/

/-- Translation of household_income.formula: iterate over the parents role
group, accumulating income += adult salary from income = 0. -/
def household_income_formula (hs : List HouseholdSnap) (_p : Params) : List ℚ :=
  hs.map (fun h => h.parents.foldl (fun income adult => income + adult.salary) 0)

/-! ## age_of_youngest_child (benefits.py lines 116-129)

The loop keeps a running minimum min_age_in_years starting at 200 and
rebinds age to each child age in turn, but the final statement returns
age, not min_age_in_years.  The returned value is therefore the age of
the last child iterated, and when the children group is empty the name
age was never bound, so the return raises an unbound-name error,
modelled as none. -/

/-- One loop iteration: state is (min_age_in_years, last value bound to
age); the child age is bound to age and compared against the minimum. -/
def aycStep (s : ℚ × Option ℚ) (child : PersonSnap) : ℚ × Option ℚ :=
  let age := child.age
  (if age < s.1 then age else s.1, some age)

/-- Translation of age_of_youngest_child.formula for one household: run
the loop from (200, unbound) and return the final binding of age. -/
def age_of_youngest_child_household (h : HouseholdSnap) : Option ℚ :=
  (h.children.foldl aycStep (200, none)).2

/-- The formula over a household batch. -/
def age_of_youngest_child_formula (hs : List HouseholdSnap) (_p : Params) : List (Option ℚ) :=
  hs.map age_of_youngest_child_household

/-! ## parenting_allowance (benefits.py lines 76-99)

The formula reads household income and the age of the youngest child,
forms a single Python boolean is_eligible with scalar and/or (Python
precedence: A or (B and C)), and returns one scalar through an
if/else, so one value is produced per call rather than one per
household. -/

/-- Translation of parenting_allowance.formula for one household: scalar
eligibility, then parenting_payment or 0; none when the nested
age_of_youngest_child computation raises. -/
def parenting_allowance_formula (h : HouseholdSnap) (p : Params) : Option ℚ :=
  let family_income := h.income
  let income_threshold : ℚ := 500
  match age_of_youngest_child_household h with
  | none => none
  | some ayc =>
    let is_single := h.parents.length = 1
    let is_eligible := (is_single ∧ ayc < 8) ∨ (ayc < 6 ∧ family_income ≤ income_threshold)
    if is_eligible then some p.parenting_payment else some 0

/-! ## Entity value resolver cache

Modelled from the spec: the entity value resolver and its per-run cache
(section 4.2) belong to the framework, absent from this repository.  The
cache is keyed by (variable_name, period, entity identity range); on a
miss the formula runs once and the result is stored, on a hit the cached
array is returned unchanged. -/

/-- A cache key: variable name, period start, and the entity identity
range as a pair of bounds. -/
abbrev VKey : Type := String × Nat × Nat × Nat

/-- Association-list lookup in the per-run cache. -/
def cacheLookup : List (VKey × List ℚ) → VKey → Option (List ℚ)
  | [], _ => none
  | (k, v) :: rest, key => if k = key then some v else cacheLookup rest key

/-- Modelled from the spec: get_value (section 4.2).  Returns the value,
the updated cache, and how many times the underlying formula was invoked
by this call (0 on a hit, 1 on a miss). -/
def get_value (compute : VKey → List ℚ) (c : List (VKey × List ℚ)) (k : VKey) :
    List ℚ × List (VKey × List ℚ) × Nat :=
  match cacheLookup c k with
  | some v => (v, c, 0)
  | none => (compute k, (k, compute k) :: c, 1)

/-! ## Lemmas about the dispatcher -/

/-- A selected entry is one of the listed formulas. -/
theorem lastLE_mem {F : Type} {ps : Nat} {r : Nat × F} :
    ∀ {fs : List (Nat × F)}, lastLE fs ps = some r → r ∈ fs := by
  intro fs
  induction fs with
  | nil => intro h; simp [lastLE] at h
  | cons df rest ih =>
    intro h
    cases hrest : lastLE rest ps with
    | some s =>
      rw [lastLE, hrest] at h
      cases h
      exact List.mem_cons_of_mem _ (ih hrest)
    | none =>
      rw [lastLE, hrest] at h
      by_cases hle : df.1 ≤ ps
      · rw [if_pos hle] at h
        cases h
        exact List.mem_cons_self _ _
      · rw [if_neg hle] at h
        cases h

/-- A selected entry has effective date at most the period start. -/
theorem lastLE_le {F : Type} {ps : Nat} {r : Nat × F} :
    ∀ {fs : List (Nat × F)}, lastLE fs ps = some r → r.1 ≤ ps := by
  intro fs
  induction fs with
  | nil => intro h; simp [lastLE] at h
  | cons df rest ih =>
    intro h
    cases hrest : lastLE rest ps with
    | some s =>
      rw [lastLE, hrest] at h
      cases h
      exact ih hrest
    | none =>
      rw [lastLE, hrest] at h
      by_cases hle : df.1 ≤ ps
      · rw [if_pos hle] at h
        cases h
        exact hle
      · rw [if_neg hle] at h
        cases h

/-- No entry is selected exactly when no entry qualifies. -/
theorem lastLE_eq_none_iff {F : Type} {ps : Nat} :
    ∀ {fs : List (Nat × F)}, lastLE fs ps = none ↔ ∀ x ∈ fs, ¬ x.1 ≤ ps := by
  intro fs
  induction fs with
  | nil => simp [lastLE]
  | cons df rest ih =>
    cases hrest : lastLE rest ps with
    | some s =>
      rw [lastLE, hrest]
      constructor
      · intro h; cases h
      · intro h
        exact absurd (lastLE_le hrest) (h s (List.mem_cons_of_mem _ (lastLE_mem hrest)))
    | none =>
      rw [lastLE, hrest]
      by_cases hle : df.1 ≤ ps
      · rw [if_pos hle]
        constructor
        · intro h; cases h
        · intro h
          exact absurd hle (h df (List.mem_cons_self df rest))
      · rw [if_neg hle]
        constructor
        · intro _ x hx
          rcases List.mem_cons.mp hx with rfl | hx
          · exact hle
          · exact ih.mp hrest x hx
        · intro _
          rfl

/-- If an entry is selected for an earlier period start, one is selected
for any later period start as well. -/
theorem lastLE_isSome_mono {F : Type} {fs : List (Nat × F)} {p1 p2 : Nat} {r1 : Nat × F}
    (hp : p1 ≤ p2) (h1 : lastLE fs p1 = some r1) : ∃ r2, lastLE fs p2 = some r2 := by
  cases h2 : lastLE fs p2 with
  | some r2 => exact ⟨r2, rfl⟩
  | none =>
    have hnone : lastLE fs p1 = none :=
      lastLE_eq_none_iff.mpr (fun x hx hle => lastLE_eq_none_iff.mp h2 x hx (le_trans hle hp))
    rw [hnone] at h1
    cases h1

/-- Selection is monotone in the period start: the effective date of the
entry selected later is never below the one selected earlier. -/
theorem lastLE_mono {F : Type} {p1 p2 : Nat} {r1 r2 : Nat × F} (hp : p1 ≤ p2) :
    ∀ {fs : List (Nat × F)}, lastLE fs p1 = some r1 → lastLE fs p2 = some r2 →
      r1.1 ≤ r2.1 := by
  intro fs
  induction fs with
  | nil => intro h1 _; simp [lastLE] at h1
  | cons df rest ih =>
    intro h1 h2
    cases hr1 : lastLE rest p1 with
    | some s1 =>
      rw [lastLE, hr1] at h1
      cases h1
      obtain ⟨s2, hs2⟩ := lastLE_isSome_mono hp hr1
      rw [lastLE, hs2] at h2
      cases h2
      exact ih hr1 hs2
    | none =>
      rw [lastLE, hr1] at h1
      by_cases hle : df.1 ≤ p1
      · rw [if_pos hle] at h1
        cases h1
        cases hr2 : lastLE rest p2 with
        | some s2 =>
          rw [lastLE, hr2] at h2
          cases h2
          have hnot : ¬ r2.1 ≤ p1 := lastLE_eq_none_iff.mp hr1 r2 (lastLE_mem hr2)
          exact le_of_lt (lt_of_le_of_lt hle (lt_of_not_le hnot))
        | none =>
          rw [lastLE, hr2, if_pos (le_trans hle hp)] at h2
          cases h2
          exact le_refl _
      · rw [if_neg hle] at h1
        cases h1

/-- On a list with strictly increasing effective dates, the selected entry
has the greatest effective date among the qualifying entries. -/
theorem lastLE_max {F : Type} {ps : Nat} {r : Nat × F} :
    ∀ {fs : List (Nat × F)}, List.Pairwise (fun a b => a.1 < b.1) fs →
      lastLE fs ps = some r → ∀ x ∈ fs, x.1 ≤ ps → x.1 ≤ r.1 := by
  intro fs
  induction fs with
  | nil => intro _ h; simp [lastLE] at h
  | cons df rest ih =>
    intro hsort h x hx hxle
    obtain ⟨hdf, hrest⟩ := List.pairwise_cons.mp hsort
    cases hr : lastLE rest ps with
    | some s =>
      rw [lastLE, hr] at h
      cases h
      rcases List.mem_cons.mp hx with rfl | hx
      · exact le_of_lt (hdf r (lastLE_mem hr))
      · exact ih hrest hr x hx hxle
    | none =>
      rw [lastLE, hr] at h
      by_cases hle : df.1 ≤ ps
      · rw [if_pos hle] at h
        cases h
        rcases List.mem_cons.mp hx with rfl | hx
        · exact le_refl _
        · exact absurd hxle (lastLE_eq_none_iff.mp hr x hx)
      · rw [if_neg hle] at h
        cases h

/-! ## Helper lemmas for the vectorized evaluator and the resolver -/

/-- zipWith agrees with the pointwise combination at every in-range index. -/
theorem zipWith_getElem?_some {α β γ : Type} (f : α → β → γ) {l1 : List α} {l2 : List β}
    {i : Nat} {a : α} {b : β} (h1 : l1[i]? = some a) (h2 : l2[i]? = some b) :
    (List.zipWith f l1 l2)[i]? = some (f a b) := by
  rw [List.getElem?_zipWith, h1, h2]

/-- Folding addition of salaries from any start value gives the start value
plus the sum of the salaries. -/
theorem foldl_add_salary :
    ∀ (l : List PersonSnap) (c : ℚ),
      l.foldl (fun income adult => income + adult.salary) c
        = c + (l.map PersonSnap.salary).sum := by
  intro l
  induction l with
  | nil => intro c; simp
  | cons a as ih =>
    intro c
    simp [List.foldl_cons, ih, List.map_cons, List.sum_cons, add_assoc]

/-! ## The claims -/

/-- C1: among the variable formulas in ascending effective-date order, the
dispatcher selects the last one whose effective date is at most
period.start (it is a listed formula, it qualifies, and under the
strictly-increasing-dates invariant it dominates every qualifying
formula); selection is empty when the end date is before period.start, or
when no formula qualifies; and basic_income queried for 2010-01 resolves
to the numeric default 0.0. -/
theorem formula_dispatcher_selects_last :
    (∀ (F : Type) (v : VarSchedule F) (ps : Nat) (r : Nat × F),
        selectFormula v ps = some r →
          r ∈ v.formulas ∧ r.1 ≤ ps ∧
            (List.Pairwise (fun a b => a.1 < b.1) v.formulas →
              ∀ x ∈ v.formulas, x.1 ≤ ps → x.1 ≤ r.1)) ∧
    (∀ (F : Type) (v : VarSchedule F) (e ps : Nat),
        v.endDate = some e → e < ps → selectFormula v ps = none) ∧
    (∀ (F : Type) (v : VarSchedule F) (ps : Nat),
        v.endDate = none →
          (selectFormula v ps = none ↔ ∀ x ∈ v.formulas, ¬ x.1 ≤ ps)) ∧
    basic_income_compute [⟨20, 100⟩] ⟨18, 65, 600, 1 / 10, 300⟩ 20100101 = [0] := by
  refine ⟨?_, ?_, ?_, by decide⟩
  · intro F v ps r h
    cases he : v.endDate with
    | some e =>
      simp only [selectFormula, he] at h
      by_cases hlt : e < ps
      · rw [if_pos hlt] at h
        cases h
      · rw [if_neg hlt] at h
        exact ⟨lastLE_mem h, lastLE_le h, fun hsort x hx hxle => lastLE_max hsort h x hx hxle⟩
    | none =>
      simp only [selectFormula, he] at h
      exact ⟨lastLE_mem h, lastLE_le h, fun hsort x hx hxle => lastLE_max hsort h x hx hxle⟩
  · intro F v e ps he hlt
    simp only [selectFormula, he]
    rw [if_pos hlt]
  · intro F v ps he
    simp only [selectFormula, he]
    exact lastLE_eq_none_iff

/-- Witness for C1 at concrete inputs: selection for basic_income at
2016-12 is a listed, qualifying, dominating formula, and selection for
housing_allowance after its end date is empty. -/
theorem formula_dispatcher_selects_last_witness :
    ((20161201, BIFormula.f2016) ∈ basic_income_schedule.formulas ∧
      (20151201 : Nat) ≤ (20161201, BIFormula.f2016).1) ∧
    selectFormula housing_allowance_schedule 20170101 = none := by
  constructor
  · have h := formula_dispatcher_selects_last.1 BIFormula basic_income_schedule 20161201
      (20161201, BIFormula.f2016) (by decide)
    exact ⟨h.1, h.2.2 (by decide) (20151201, BIFormula.f2015) (by decide) (by decide)⟩
  · exact formula_dispatcher_selects_last.2.1 HAFormula housing_allowance_schedule
      20161130 20170101 rfl (by decide)

/-- C2: for a boolean mask and a scalar, the elementwise product keeps the
scalar where the mask is true and is 0 where it is false, at every index
and for every length including 0; likewise for a value array of matching
length. -/
theorem mask_mul_conditional_select :
    (∀ (m : List Bool) (v : ℚ) (i : Nat),
        (maskMul m v)[i]? = (m[i]?).map (fun b => if b then v else 0)) ∧
    (∀ (m : List Bool) (vs : List ℚ), m.length = vs.length →
      ∀ (i : Nat) (b : Bool) (x : ℚ), m[i]? = some b → vs[i]? = some x →
        (maskMulArr m vs)[i]? = some (if b then x else 0)) := by
  constructor
  · intro m v i
    rw [maskMul, List.getElem?_map]
    cases h : m[i]? with
    | none => rfl
    | some b => cases b <;> simp
  · intro m vs _ i b x hb hx
    rw [maskMulArr, zipWith_getElem?_some _ hb hx]
    cases b <;> simp

/-- Witness for C2 at concrete inputs: a true index keeps the value and a
false index yields 0, for the scalar and the array forms. -/
theorem mask_mul_conditional_select_witness :
    (maskMul [true, false] 5)[1]? = some 0 ∧
    (maskMulArr [true, false] [3, 4])[0]? = some 3 ∧
    (maskMulArr [true, false] [3, 4])[1]? = some 0 := by
  refine ⟨?_, ?_, ?_⟩
  · have h := mask_mul_conditional_select.1 [true, false] 5 1
    simpa using h
  · have h := mask_mul_conditional_select.2 [true, false] [3, 4] rfl 0 true 3 rfl rfl
    simpa using h
  · have h := mask_mul_conditional_select.2 [true, false] [3, 4] rfl 1 false 4 rfl rfl
    simpa using h

/-- C3 refuted on the code: for a household whose children have ages 3 and
10 in iteration order, the formula returns the last child age 10, while
the running minimum it maintained is 3, so the returned value is not the
minimum child age. -/
theorem age_of_youngest_child_not_min :
    age_of_youngest_child_household ⟨0, [], [⟨3, 0⟩, ⟨10, 0⟩], 0⟩ = some 10 ∧
    ((HouseholdSnap.children ⟨0, [], [⟨3, 0⟩, ⟨10, 0⟩], 0⟩).foldl aycStep (200, none)).1 = 3 ∧
    some (10 : ℚ) ≠ some (3 : ℚ) := by
  decide

/-- C4 refuted on the code: the parenting_allowance body collapses to one
scalar per call; on two households whose own data demand different
values (an eligible single parent with a 5-year-old versus an ineligible
couple with a 9-year-old and income 1000), the required per-household
values differ, so a single scalar cannot be the per-household array the
formula contract requires. -/
theorem parenting_allowance_scalar_conflation :
    parenting_allowance_formula ⟨0, [⟨30, 0⟩], [⟨5, 0⟩], 300⟩ ⟨18, 65, 600, 1 / 10, 300⟩
      = some 300 ∧
    parenting_allowance_formula ⟨0, [⟨30, 0⟩, ⟨31, 0⟩], [⟨9, 0⟩], 1000⟩ ⟨18, 65, 600, 1 / 10, 300⟩
      = some 0 ∧
    some (300 : ℚ) ≠ some (0 : ℚ) := by
  decide

/-- C5: two get_value calls with the same compute function, cache and key
return identical arrays; the second call is a cache hit (0 invocations)
and the two calls together invoke the formula at most once. -/
theorem get_value_idempotent :
    ∀ (compute : VKey → List ℚ) (c : List (VKey × List ℚ)) (k : VKey),
      (get_value compute (get_value compute c k).2.1 k).1 = (get_value compute c k).1 ∧
      (get_value compute (get_value compute c k).2.1 k).2.2 = 0 ∧
      (get_value compute c k).2.2 + (get_value compute (get_value compute c k).2.1 k).2.2 ≤ 1 := by
  intro compute c k
  cases h : cacheLookup c k with
  | some v => simp [get_value, h]
  | none => simp [get_value, h, cacheLookup]

/-- C6: the dispatcher yields exactly one formula or none for any period,
and selection is monotone: a strictly later period never selects a
formula with a strictly earlier effective date. -/
theorem select_formula_monotone :
    (∀ (F : Type) (v : VarSchedule F) (ps : Nat),
        (selectFormula v ps).isSome = true ∨ selectFormula v ps = none) ∧
    (∀ (F : Type) (v : VarSchedule F) (p1 p2 : Nat) (r1 r2 : Nat × F),
        p1 < p2 → selectFormula v p1 = some r1 → selectFormula v p2 = some r2 →
          r1.1 ≤ r2.1) := by
  constructor
  · intro F v ps
    cases h : selectFormula v ps with
    | some r => exact Or.inl rfl
    | none => exact Or.inr rfl
  · intro F v p1 p2 r1 r2 hp h1 h2
    cases he : v.endDate with
    | some e =>
      simp only [selectFormula, he] at h1 h2
      by_cases h1e : e < p1
      · rw [if_pos h1e] at h1
        cases h1
      · rw [if_neg h1e] at h1
        by_cases h2e : e < p2
        · rw [if_pos h2e] at h2
          cases h2
        · rw [if_neg h2e] at h2
          exact lastLE_mono (le_of_lt hp) h1 h2
    | none =>
      simp only [selectFormula, he] at h1 h2
      exact lastLE_mono (le_of_lt hp) h1 h2

/-- Witness for C6 at concrete inputs: basic_income selected at 2015-12
and at 2016-12 has non-decreasing effective dates. -/
theorem select_formula_monotone_witness :
    (selectFormula basic_income_schedule 20151201).isSome = true ∧
    (20151201 : Nat) ≤ (20161201 : Nat) := by
  constructor
  · rcases select_formula_monotone.1 BIFormula basic_income_schedule 20151201 with h | h
    · exact h
    · exact absurd h (by decide)
  · exact select_formula_monotone.2 BIFormula basic_income_schedule 20151201 20161201
      (20151201, BIFormula.f2015) (20161201, BIFormula.f2016) (by decide) (by decide) (by decide)

/-- C7: a person aged 20, period 2015-12, age_of_majority 18 and
basic_income parameter 600: dispatch selects the formula effective
2015-12, and the value is 600 at salary 0 and 0 at salary 100. -/
theorem basic_income_scenario_2015_12 :
    selectFormula basic_income_schedule 20151201 = some (20151201, BIFormula.f2015) ∧
    basic_income_compute [⟨20, 0⟩] ⟨18, 65, 600, 1 / 10, 300⟩ 20151201 = [600] ∧
    basic_income_compute [⟨20, 100⟩] ⟨18, 65, 600, 1 / 10, 300⟩ 20151201 = [0] := by
  have hsel : selectFormula basic_income_schedule 20151201 = some (20151201, BIFormula.f2015) := by
    decide
  refine ⟨hsel, ?_, ?_⟩ <;>
    norm_num [basic_income_compute, hsel, applyBIFormula, basic_income_formula_2015_12,
      maskMul, maskAnd]

/-- C8: a household with rent 500 and housing_allowance rate 0.1 gets 50
for period 2016-11, inside the validity window, and 0 for period 2017-01,
after the end date 2016-11-30. -/
theorem housing_allowance_scenario :
    housing_allowance_compute [⟨500, [], [], 0⟩] ⟨18, 65, 600, 1 / 10, 300⟩ 20161101 = [50] ∧
    housing_allowance_compute [⟨500, [], [], 0⟩] ⟨18, 65, 600, 1 / 10, 300⟩ 20170101 = [0] := by
  have hsel1 : selectFormula housing_allowance_schedule 20161101
      = some (19800101, HAFormula.f1980) := by decide
  have hsel2 : selectFormula housing_allowance_schedule 20170101 = none := by decide
  constructor
  · norm_num [housing_allowance_compute, hsel1, housing_allowance_formula_1980]
  · norm_num [housing_allowance_compute, hsel2]

/-- C9: household_income is, for every household of the batch, the sum of
the salaries of the parents role group; for parents with salaries 1000
and 1500 it is 2500. -/
theorem household_income_sums_parent_salaries :
    (∀ (hs : List HouseholdSnap) (p : Params),
        household_income_formula hs p
          = hs.map (fun h => (h.parents.map PersonSnap.salary).sum)) ∧
    household_income_formula [⟨0, [⟨30, 1000⟩, ⟨31, 1500⟩], [], 0⟩] ⟨18, 65, 600, 1 / 10, 300⟩
      = [2500] := by
  constructor
  · intro hs p
    unfold household_income_formula
    apply List.map_congr_left
    intro h _
    simpa using foldl_add_salary h.parents 0
  · norm_num [household_income_formula, foldl_add_salary]

/-- C10: on a household whose children role group is empty the loop never
binds the name age, so the formula yields no value (none) and in
particular never the sentinel 200. -/
theorem age_of_youngest_child_empty_children :
    ∀ (h : HouseholdSnap), h.children = [] →
      age_of_youngest_child_household h = none ∧
        age_of_youngest_child_household h ≠ some 200 := by
  intro h hc
  rw [age_of_youngest_child_household, hc]
  exact ⟨rfl, by intro hcon; cases hcon⟩

/-- Witness for C10 at a concrete childless household. -/
theorem age_of_youngest_child_empty_children_witness :
    age_of_youngest_child_household ⟨0, [], [], 0⟩ = none ∧
      age_of_youngest_child_household ⟨0, [], [], 0⟩ ≠ some 200 :=
  age_of_youngest_child_empty_children ⟨0, [], [], 0⟩ rfl

end CountryTemplate
